import Mathlib

/-!
# tiny-http-server: a shallow embedding of `main.cpp`

The program is a thread-per-connection TCP server.  Every system call and
every console write the program performs is recorded as an `Event`; the two
functions of the source, `handle_client` and `main`, become pure functions
from the answers of the operating system (the result of `recv`, of `send`,
of `socket`, `bind`, `listen` and of each `accept`) to the list of events
they perform.

The POSIX branch of the `#ifdef _WIN32` blocks is the one embedded.
-/

namespace TinyHttp

/-! ## Bytes and strings -/

/-- Bytes of a narrow string literal of the source: one `char` per character
(every literal of the program is ASCII). -/
def bytesOf (s : String) : List Nat := s.toList.map Char.toNat

/-- Decimal rendering of an `int` by `operator<<`, as bytes. -/
def decimal (n : Nat) : List Nat := bytesOf (toString n)

/-- `#define SERVER_PORT 8080` -/
def SERVER_PORT : Nat := 8080

/-- The constant `HTTP_RESPONSE` (lines 21-26): five adjacent string literals,
concatenated by the compiler. -/
def HTTP_RESPONSE : List Nat :=
  bytesOf "HTTP/1.1 200 OK\r\n" ++
  bytesOf "Content-Type: text/plain\r\n" ++
  bytesOf "Content-Length: 13\r\n" ++
  bytesOf "Connection: close\r\n\r\n" ++
  bytesOf "Hello, World!"

/-- Member `std::string::size()`: the number of bytes, terminator excluded. -/
def size (s : List Nat) : Nat := s.length

/-- Member `std::string::c_str()`: the bytes followed by a terminating zero. -/
def c_str (s : List Nat) : List Nat := s ++ [0]

/-- Reading a C string (`operator<<` on a `char*`) from an array: the bytes
before the first zero.  `none` when the array holds no zero, in which case
the read would run past the end of the array. -/
def cstrRead (mem : List Nat) : Option (List Nat) :=
  if 0 ∈ mem then some (mem.takeWhile (fun b => b ≠ 0)) else none

/-- The pair of bytes carriage return, line feed. -/
def CRLF : List Nat := [13, 10]

/-- What follows the first occurrence of `pat` in `l`; `none` when `pat`
does not occur. -/
def afterFirst (pat : List Nat) : List Nat → Option (List Nat)
  | [] => if pat = [] then some [] else none
  | x :: xs =>
    if pat.isPrefixOf (x :: xs) then some ((x :: xs).drop pat.length)
    else afterFirst pat xs

/-! ## Events -/

/-- The observable operations of the program. -/
inductive Event where
  /-- The call `socket(AF_INET, SOCK_STREAM, 0)`. -/
  | socket
  /-- The call `bind(fd, INADDR_ANY : port)`. -/
  | bind (fd : Int) (port : Nat)
  /-- The call `listen(fd, backlog)`. -/
  | listen (fd : Int) (backlog : Nat)
  /-- The call `accept(fd, nullptr, nullptr)`. -/
  | accept (fd : Int)
  /-- Construction of `std::thread(handle_client, fd)`. -/
  | spawn (fd : Int)
  /-- The call `thread.join()` on the handler thread of `fd`. -/
  | join (fd : Int)
  /-- The call `recv(fd, buffer, maxLen, 0)`. -/
  | recv (fd : Int) (maxLen : Nat)
  /-- The console mutex is acquired (`lock_guard` constructed). -/
  | lock
  /-- Acquiring the console mutex threw `std::system_error`. -/
  | lockThrow
  /-- The console mutex is released (`lock_guard` destroyed). -/
  | unlock
  /-- Bytes written to `std::cout`. -/
  | cout (bytes : List Nat)
  /-- Bytes written to `std::cerr`. -/
  | cerr (bytes : List Nat)
  /-- A read of `buffer` as a C string that found no terminator in it. -/
  | overrun
  /-- The call `send(fd, bytes, bytes.length, 0)`. -/
  | send (fd : Int) (bytes : List Nat)
  /-- The call `close(fd)` (`CLOSESOCKET`). -/
  | close (fd : Int)
  /-- The process is terminated by `SIGPIPE`, raised inside `send`. -/
  | killed
  deriving DecidableEq, Repr

/-! ## `handle_client` -/

/-- What one call of `recv` did: the value it returned and the bytes it copied
to the start of the buffer. -/
structure RecvOutcome where
  ret : Int
  stored : List Nat
  deriving DecidableEq, Repr

/-- The contract of `recv(fd, buf, len, 0)`: a negative result stores nothing,
a non-negative result is the number of bytes stored, at most `len`, each a
byte. -/
def recvContract (len : Nat) (r : RecvOutcome) : Prop :=
  (r.ret < 0 → r.stored = []) ∧
  (0 ≤ r.ret → (r.stored.length : Int) = r.ret ∧ r.stored.length ≤ len) ∧
  (∀ b ∈ r.stored, b < 256)

instance (len : Nat) (r : RecvOutcome) : Decidable (recvContract len r) := by
  unfold recvContract; infer_instance

/-- What the one call of `send` did.  Either it returned a value, which the
handler ignores; or the peer had reset the connection and the call raised
`SIGPIPE`: the call passes flags `0` (no `MSG_NOSIGNAL`) and the program
never changes the action of the signal, so the process is terminated inside
the call. -/
inductive SendOutcome where
  | returned (ret : Int)
  | sigpipe
  deriving DecidableEq, Repr

/-- The array after `recv` copied `stored` to its start. -/
def recvStore (buffer stored : List Nat) : List Nat :=
  stored ++ buffer.drop stored.length

/-- The function `handle_client` (lines 37-64).  `r` is what the one `recv`
does; `lockFault` is `some what` when locking `console_mutex` throws a
`std::system_error` whose `what()` is `what` (the only operation of the `try`
block that can throw: the streams never have exceptions enabled), `none` when
the lock is acquired; `sent` is what the one `send` does, when it is reached.
The result is the list of operations performed, in order, up to the return of
the handler, or up to `Event.killed` when the process is terminated in it. -/
def handle_client (client_socket : Int) (r : RecvOutcome)
    (lockFault : Option (List Nat)) (sent : SendOutcome) : List Event :=
  -- char buffer[1024] = { 0 };
  let buffer0 : List Nat := List.replicate 1024 0
  -- int bytes_received = recv(client_socket, buffer, sizeof(buffer) - 1, 0);
  let buffer := recvStore buffer0 r.stored
  let bytes_received := r.ret
  if bytes_received < 0 then
    [ Event.recv client_socket (1024 - 1),
      Event.cerr (bytesOf "Error reading from client.\n"),
      Event.close client_socket ]
  else
    match lockFault with
    | some what =>
      -- catch (const std::exception& e)
      [ Event.recv client_socket (1024 - 1),
        Event.lockThrow,
        Event.cerr (bytesOf "Error handling client: " ++ what ++ bytesOf "\n") ]
    | none =>
      match cstrRead buffer with
      | none =>
        [ Event.recv client_socket (1024 - 1), Event.lock, Event.overrun ]
      | some text =>
        -- send(client_socket, HTTP_RESPONSE.c_str(), HTTP_RESPONSE.size(), 0);
        match sent with
        | SendOutcome.sigpipe =>
          [ Event.recv client_socket (1024 - 1),
            Event.lock,
            Event.cout (bytesOf "Received request:\n" ++ text ++ bytesOf "\n"),
            Event.unlock,
            Event.send client_socket ((c_str HTTP_RESPONSE).take (size HTTP_RESPONSE)),
            Event.killed ]
        | SendOutcome.returned _ =>
          [ Event.recv client_socket (1024 - 1),
            Event.lock,
            Event.cout (bytesOf "Received request:\n" ++ text ++ bytesOf "\n"),
            Event.unlock,
            Event.send client_socket ((c_str HTTP_RESPONSE).take (size HTTP_RESPONSE)),
            Event.close client_socket ]

/-! ## Observations on a list of events -/

/-- How many times `close(fd)` is called. -/
def closeCount (fd : Int) (tr : List Event) : Nat := tr.count (Event.close fd)

/-- Whether the console mutex is held after the events `tr`, given whether it
was held before. -/
def heldAfter : Bool → List Event → Bool
  | held, [] => held
  | _, Event.lock :: tr => heldAfter true tr
  | _, Event.unlock :: tr => heldAfter false tr
  | held, _ :: tr => heldAfter held tr

/-- Every console write (`cout` or `cerr`) happens while the mutex is held. -/
def writesGuarded : Bool → List Event → Bool
  | _, [] => true
  | _, Event.lock :: tr => writesGuarded true tr
  | _, Event.unlock :: tr => writesGuarded false tr
  | held, Event.cout _ :: tr => held && writesGuarded held tr
  | held, Event.cerr _ :: tr => held && writesGuarded held tr
  | held, _ :: tr => writesGuarded held tr

/-- The bytes written to `std::cout`, one entry per write. -/
def coutWrites : List Event → List (List Nat)
  | [] => []
  | Event.cout b :: tr => b :: coutWrites tr
  | _ :: tr => coutWrites tr

/-- The bytes written to `std::cerr`, one entry per write. -/
def cerrWrites : List Event → List (List Nat)
  | [] => []
  | Event.cerr b :: tr => b :: cerrWrites tr
  | _ :: tr => cerrWrites tr

/-- The bytes passed to `send`, one entry per call. -/
def sendCalls : List Event → List (List Nat)
  | [] => []
  | Event.send _ b :: tr => b :: sendCalls tr
  | _ :: tr => sendCalls tr

/-! ## `main` -/

/-- How the body of a loop hands control back: `next` for reaching the end of
the body or a `continue`, `brk` for leaving the loop. -/
inductive Ctl where
  | next
  | brk
  deriving DecidableEq, Repr

/-- The variables of `main` that change in the accept loop: the vector
`threads` (each handler thread named by the client socket it was started on)
and the operations performed so far. -/
structure ServerState where
  threads : List Int
  trace : List Event
  deriving DecidableEq, Repr

/-- One pass through the body of `while (true)` (lines 120-128), where
`client_socket` is what this call of `accept` returns. -/
def acceptBody (server_socket : Int) (st : ServerState) (client_socket : Int) :
    ServerState × Ctl :=
  -- int client_socket = accept(server_socket, nullptr, nullptr);
  let tr := st.trace ++ [Event.accept server_socket]
  if client_socket < 0 then
    -- std::cerr << "Accept failed.\n"; continue;
    (⟨st.threads, tr ++ [Event.cerr (bytesOf "Accept failed.\n")]⟩, Ctl.next)
  else
    -- threads.emplace_back(std::thread(handle_client, client_socket));
    (⟨st.threads ++ [client_socket], tr ++ [Event.spawn client_socket]⟩, Ctl.next)

/-- The statement `while (true) body`, run on the results of the successive
calls of `accept`.  The flag of the result tells whether control left the
loop; it is `false` when the listed results are used up, the loop then being
about to call `accept` again. -/
def whileTrue (body : ServerState → Int → ServerState × Ctl) :
    ServerState → List Int → ServerState × Bool
  | st, [] => (st, false)
  | st, r :: rs =>
    match body st r with
    | (st1, Ctl.next) => whileTrue body st1 rs
    | (st1, Ctl.brk) => (st1, true)

/-- What a run of `main` amounts to: the operations performed, the vector
`threads`, and the exit code when `main` returned (`none` while it is still
in the accept loop). -/
structure MainOutcome where
  trace : List Event
  threads : List Int
  exit : Option Int
  deriving DecidableEq, Repr

/-- The banner written by line 115. -/
def banner (port : Nat) : List Nat :=
  bytesOf "HTTP server is running on port " ++ decimal port ++ bytesOf "...\n"

/-- The function `main` (lines 66-146).  `socket_result`, `bind_result` and
`listen_result` are the values returned by `socket`, `bind` and `listen`;
`accepts` are the values returned by the successive calls of `accept`.
Constructing a `std::thread` and growing the vector are taken to succeed:
`main` has no handler for their exceptions, which abort the process. -/
def main (socket_result bind_result listen_result : Int) (accepts : List Int) :
    MainOutcome :=
  let port := SERVER_PORT
  -- int server_socket = socket(AF_INET, SOCK_STREAM, 0);
  let server_socket := socket_result
  if server_socket < 0 then
    ⟨[ Event.socket, Event.cerr (bytesOf "Socket creation failed.\n") ], [], some 1⟩
  else if bind_result < 0 then
    ⟨[ Event.socket, Event.bind server_socket port,
       Event.cerr (bytesOf "Bind failed.\n"), Event.close server_socket ], [], some 1⟩
  else if listen_result < 0 then
    ⟨[ Event.socket, Event.bind server_socket port, Event.listen server_socket 10,
       Event.cerr (bytesOf "Listen failed.\n"), Event.close server_socket ], [], some 1⟩
  else
    let st0 : ServerState :=
      ⟨[], [ Event.socket, Event.bind server_socket port, Event.listen server_socket 10,
             Event.cout (banner port) ]⟩
    match whileTrue (acceptBody server_socket) st0 accepts with
    | (st, false) => ⟨st.trace, st.threads, none⟩
    | (st, true) =>
      -- CLOSESOCKET(server_socket); join every thread; return 0;
      ⟨st.trace ++ [Event.close server_socket] ++ st.threads.map Event.join,
       st.threads, some 0⟩

/-- The client sockets handler threads were started on, in order. -/
def spawned : List Event → List Int
  | [] => []
  | Event.spawn fd :: tr => fd :: spawned tr
  | _ :: tr => spawned tr

/-- How many calls of `accept` the events hold. -/
def acceptCalls : List Event → Nat
  | [] => 0
  | Event.accept _ :: tr => acceptCalls tr + 1
  | _ :: tr => acceptCalls tr

/-! ## Lemmas on the request buffer -/

theorem takeWhile_append_stop (p : Nat → Bool) (l : List Nat) (a : Nat) (rest : List Nat)
    (ha : p a = false) : (l ++ a :: rest).takeWhile p = l.takeWhile p := by
  induction l with
  | nil => simp [List.takeWhile, ha]
  | cons x xs ih =>
    cases hx : p x with
    | true => simp [List.takeWhile, hx, ih]
    | false => simp [List.takeWhile, hx]

theorem split_at_zero (l : List Nat) :
    l = l.takeWhile (fun b => b ≠ 0) ∨
    ∃ rest : List Nat, l = l.takeWhile (fun b => b ≠ 0) ++ 0 :: rest := by
  induction l with
  | nil => simp
  | cons x xs ih =>
    by_cases hx : x = 0
    · right
      exact ⟨xs, by simp [List.takeWhile, hx]⟩
    · rcases ih with h | ⟨rest, h⟩
      · left
        simp only [List.takeWhile, hx, ne_eq, not_false_eq_true, decide_True]
        exact congrArg (List.cons x) h
      · right
        refine ⟨rest, ?_⟩
        simp only [List.takeWhile, hx, ne_eq, not_false_eq_true, decide_True, List.cons_append]
        exact congrArg (List.cons x) h

theorem recvStore_zero (stored : List Nat) (h : stored.length ≤ 1023) :
    recvStore (List.replicate 1024 0) stored
      = stored ++ 0 :: List.replicate (1023 - stored.length) 0 := by
  have e : 1024 - stored.length = (1023 - stored.length) + 1 := by omega
  unfold recvStore
  rw [List.drop_replicate, e, List.replicate_succ]

theorem cstrRead_recvStore (stored : List Nat) (h : stored.length ≤ 1023) :
    cstrRead (recvStore (List.replicate 1024 0) stored)
      = some (stored.takeWhile (fun b => b ≠ 0)) := by
  rw [recvStore_zero stored h]
  have hm : (0 : Nat) ∈ stored ++ 0 :: List.replicate (1023 - stored.length) 0 := by simp
  unfold cstrRead
  rw [if_pos hm, takeWhile_append_stop _ _ _ _ (by simp)]

theorem send_argument : (c_str HTTP_RESPONSE).take (size HTTP_RESPONSE) = HTTP_RESPONSE := by
  simp [c_str, size]

theorem handle_client_acquired (fd : Int) (r : RecvOutcome)
    (hc : recvContract 1023 r) (h0 : 0 ≤ r.ret) (ret : Int) :
    handle_client fd r none (SendOutcome.returned ret) =
      [ Event.recv fd 1023, Event.lock,
        Event.cout (bytesOf "Received request:\n" ++ r.stored.takeWhile (fun b => b ≠ 0)
          ++ bytesOf "\n"),
        Event.unlock, Event.send fd HTTP_RESPONSE, Event.close fd ] := by
  have hlen : r.stored.length ≤ 1023 := (hc.2.1 h0).2
  simp only [handle_client, not_lt.mpr h0, if_false, cstrRead_recvStore r.stored hlen,
    send_argument]

theorem handle_client_sigpipe (fd : Int) (r : RecvOutcome)
    (hc : recvContract 1023 r) (h0 : 0 ≤ r.ret) :
    handle_client fd r none SendOutcome.sigpipe =
      [ Event.recv fd 1023, Event.lock,
        Event.cout (bytesOf "Received request:\n" ++ r.stored.takeWhile (fun b => b ≠ 0)
          ++ bytesOf "\n"),
        Event.unlock, Event.send fd HTTP_RESPONSE, Event.killed ] := by
  have hlen : r.stored.length ≤ 1023 := (hc.2.1 h0).2
  simp only [handle_client, not_lt.mpr h0, if_false, cstrRead_recvStore r.stored hlen,
    send_argument]

theorem handle_client_lock_throws (fd : Int) (r : RecvOutcome) (what : List Nat)
    (sent : SendOutcome) (h0 : 0 ≤ r.ret) :
    handle_client fd r (some what) sent =
      [ Event.recv fd 1023, Event.lockThrow,
        Event.cerr (bytesOf "Error handling client: " ++ what ++ bytesOf "\n") ] := by
  simp only [handle_client, not_lt.mpr h0, if_false]

theorem handle_client_read_error (fd : Int) (r : RecvOutcome) (fault : Option (List Nat))
    (sent : SendOutcome) (hneg : r.ret < 0) :
    handle_client fd r fault sent =
      [ Event.recv fd 1023, Event.cerr (bytesOf "Error reading from client.\n"),
        Event.close fd ] := by
  simp only [handle_client, hneg, if_true]

/-! ## The fixed response -/

/-- Claim C2, as amended: the constant `HTTP_RESPONSE` is 97 bytes long, and
every `send` a handler makes, whatever `recv` returned and whatever becomes
of the call, is passed exactly the 97 bytes of `HTTP_RESPONSE`. -/
theorem response_size_is_97 :
    size HTTP_RESPONSE = 97 ∧
    (c_str HTTP_RESPONSE).take (size HTTP_RESPONSE) = HTTP_RESPONSE ∧
    ∀ (fd : Int) (r : RecvOutcome) (fault : Option (List Nat)) (sent : SendOutcome)
      (bytes : List Nat),
      bytes ∈ sendCalls (handle_client fd r fault sent) →
        bytes = HTTP_RESPONSE ∧ bytes.length = 97 := by
  refine ⟨by decide, send_argument, ?_⟩
  intro fd r fault sent bytes hb
  have hlen : HTTP_RESPONSE.length = 97 := by decide
  unfold handle_client at hb
  simp only [send_argument] at hb
  split at hb
  · simp [sendCalls] at hb
  · split at hb
    · simp [sendCalls] at hb
    · split at hb
      · simp [sendCalls] at hb
      · split at hb <;>
        · simp only [sendCalls, List.mem_singleton] at hb
          subst hb
          exact ⟨rfl, hlen⟩

/-- Witness of C2: the handler of a three-byte request sends 97 bytes. -/
theorem response_size_is_97_witness :
    HTTP_RESPONSE ∈
      sendCalls (handle_client 4 ⟨3, [71, 69, 84]⟩ none (SendOutcome.returned 97)) ∧
    HTTP_RESPONSE.length = 97 :=
  ⟨by decide,
   (response_size_is_97.2.2 4 ⟨3, [71, 69, 84]⟩ none (SendOutcome.returned 97)
      HTTP_RESPONSE (by decide)).2⟩

/-- Claim C2 as the spec states it is false: `HTTP_RESPONSE.size()` is not 73. -/
theorem response_size_not_73 : size HTTP_RESPONSE ≠ 73 := by decide

/-- Claim C5: `HTTP_RESPONSE` is the status line and the three headers, each
ended by CRLF, an empty line, and the body; what follows the first CRLF CRLF
is `Hello, World!`, whose last byte is not a line feed and whose length, 13,
is the decimal number of the `Content-Length` header. -/
theorem response_layout :
    HTTP_RESPONSE =
      bytesOf "HTTP/1.1 200 OK" ++ CRLF ++
      bytesOf "Content-Type: text/plain" ++ CRLF ++
      (bytesOf "Content-Length: " ++ decimal 13) ++ CRLF ++
      bytesOf "Connection: close" ++ CRLF ++
      CRLF ++
      bytesOf "Hello, World!" ∧
    afterFirst (CRLF ++ CRLF) HTTP_RESPONSE = some (bytesOf "Hello, World!") ∧
    (bytesOf "Hello, World!").length = 13 ∧
    (bytesOf "Hello, World!").getLast? = some 33 ∧
    (afterFirst (CRLF ++ CRLF) HTTP_RESPONSE).map (fun body => decimal body.length)
      = some (bytesOf "13") ∧
    HTTP_RESPONSE.all (fun b => b < 128) = true := by
  decide

/-! ## The connection handler -/

/-- Claim C1, at the input where the code departs from it: `recv` returns the
three bytes `GET` and locking `console_mutex` throws.  The handler returns
after `recv`, the failed lock and the message of the `catch` block; it never
calls `close` on the client socket. -/
theorem handler_leaks_socket_on_exception (sent : SendOutcome) :
    handle_client 4 ⟨3, [71, 69, 84]⟩ (some (bytesOf "Operation not permitted")) sent =
      [ Event.recv 4 1023, Event.lockThrow,
        Event.cerr (bytesOf "Error handling client: Operation not permitted\n") ] ∧
    closeCount 4
      (handle_client 4 ⟨3, [71, 69, 84]⟩ (some (bytesOf "Operation not permitted")) sent)
        = 0 := by
  rw [handle_client_lock_throws 4 _ _ sent (by decide)]
  decide

/-- The client socket is closed exactly once when `recv` fails and when the
handler runs to its end; it is not closed on the path through the `catch`
block, nor when the process is terminated inside `send`. -/
theorem closeCount_handle_client (fd : Int) (r : RecvOutcome) (fault : Option (List Nat))
    (sent : SendOutcome) (hc : recvContract 1023 r) :
    closeCount fd (handle_client fd r fault sent)
      = if 0 ≤ r.ret ∧ (fault.isSome ∨ sent = SendOutcome.sigpipe) then 0 else 1 := by
  by_cases h0 : 0 ≤ r.ret
  · cases fault with
    | none =>
      cases sent with
      | returned ret => simp [handle_client_acquired fd r hc h0 ret, closeCount, h0]
      | sigpipe => simp [handle_client_sigpipe fd r hc h0, closeCount, h0]
    | some what => simp [handle_client_lock_throws fd r what sent h0, closeCount, h0]
  · have hneg : r.ret < 0 := not_le.mp h0
    simp [handle_client_read_error fd r fault sent hneg, closeCount, h0]

/-- Claim C4: for every negative result of `recv` the handler performs
exactly `recv`, the write of the error message to `std::cerr`, and `close`
of the client socket: no `send`, no request record, one `close`. -/
theorem read_error_path (fd : Int) (r : RecvOutcome) (fault : Option (List Nat))
    (sent : SendOutcome) (hneg : r.ret < 0) :
    handle_client fd r fault sent =
      [ Event.recv fd 1023, Event.cerr (bytesOf "Error reading from client.\n"),
        Event.close fd ] ∧
    cerrWrites (handle_client fd r fault sent) = [bytesOf "Error reading from client.\n"] ∧
    sendCalls (handle_client fd r fault sent) = [] ∧
    coutWrites (handle_client fd r fault sent) = [] ∧
    closeCount fd (handle_client fd r fault sent) = 1 := by
  rw [handle_client_read_error fd r fault sent hneg]
  refine ⟨rfl, ?_, ?_, ?_, ?_⟩ <;> simp [cerrWrites, sendCalls, coutWrites, closeCount]

/-- Witness of C4: `recv` returns -1. -/
theorem read_error_path_witness :
    sendCalls (handle_client 4 ⟨-1, []⟩ none (SendOutcome.returned 97)) = [] :=
  (read_error_path 4 ⟨-1, []⟩ none (SendOutcome.returned 97) (by decide)).2.2.1

/-- The record written to `std::cout` once the lock is acquired, whatever
becomes of the later `send`. -/
theorem coutWrites_handle_client (fd : Int) (r : RecvOutcome) (sent : SendOutcome)
    (hc : recvContract 1023 r) (h0 : 0 ≤ r.ret) :
    coutWrites (handle_client fd r none sent) =
      [ bytesOf "Received request:\n" ++ r.stored.takeWhile (fun b => b ≠ 0)
          ++ bytesOf "\n" ] := by
  cases sent with
  | returned ret => rw [handle_client_acquired fd r hc h0 ret]; simp [coutWrites]
  | sigpipe => rw [handle_client_sigpipe fd r hc h0]; simp [coutWrites]

/-- Claim C6, as amended: when `recv` stores `n ≤ 1023` bytes and the console
mutex is acquired, the one record written to `std::cout` is the line
`Received request:`, the stored bytes that precede the first zero byte, and a
line feed; it holds all the stored bytes when none of them is zero. -/
theorem request_record (fd : Int) (r : RecvOutcome) (sent : SendOutcome)
    (hc : recvContract 1023 r) (h0 : 0 ≤ r.ret) :
    coutWrites (handle_client fd r none sent) =
      [ bytesOf "Received request:\n" ++ r.stored.takeWhile (fun b => b ≠ 0)
          ++ bytesOf "\n" ] ∧
    (0 ∉ r.stored →
      coutWrites (handle_client fd r none sent) =
        [ bytesOf "Received request:\n" ++ r.stored ++ bytesOf "\n" ]) := by
  rw [coutWrites_handle_client fd r sent hc h0]
  refine ⟨rfl, ?_⟩
  intro hz
  have hall : r.stored.takeWhile (fun b => b ≠ 0) = r.stored := by
    rw [List.takeWhile_eq_self_iff]
    intro b hb
    have : b ≠ 0 := fun e => hz (e ▸ hb)
    simpa using this
  rw [hall]

/-- Witness of C6: the record of the request `GET`. -/
theorem request_record_witness :
    coutWrites (handle_client 4 ⟨3, [71, 69, 84]⟩ none (SendOutcome.returned 97)) =
      [ bytesOf "Received request:\n" ++ [71, 69, 84] ++ bytesOf "\n" ] :=
  (request_record 4 ⟨3, [71, 69, 84]⟩ (SendOutcome.returned 97) (by decide) (by decide)).2
    (by decide)

/-- Claim C6 as the spec states it is false: a payload with a zero byte in it
is not written whole. -/
theorem request_record_not_raw :
    ¬ ∀ (fd : Int) (r : RecvOutcome), recvContract 1023 r → 0 ≤ r.ret →
        coutWrites (handle_client fd r none (SendOutcome.returned 97)) =
          [ bytesOf "Received request:\n" ++ r.stored ++ bytesOf "\n" ] := by
  intro h
  have h1 := h 4 ⟨3, [65, 0, 66]⟩ (by decide) (by decide)
  revert h1
  decide

/-- Claim C9, at the input where the code departs from it: `recv` returns -1.
The handler writes its error message to `std::cerr` without having locked the
console mutex. -/
theorem error_message_written_without_mutex (sent : SendOutcome) :
    handle_client 4 ⟨-1, []⟩ none sent =
      [ Event.recv 4 1023, Event.cerr (bytesOf "Error reading from client.\n"),
        Event.close 4 ] ∧
    writesGuarded false (handle_client 4 ⟨-1, []⟩ none sent) = false ∧
    writesGuarded false
      (handle_client 4 ⟨3, [71, 69, 84]⟩ (some (bytesOf "Operation not permitted")) sent)
        = false := by
  rw [handle_client_read_error 4 _ none sent (by decide),
    handle_client_lock_throws 4 _ _ sent (by decide)]
  decide

/-- The parts of C9 the code keeps: the console mutex is free whenever the
handler ends, and the request record is written with the mutex held. -/
theorem mutex_released_on_every_path (fd : Int) (r : RecvOutcome)
    (fault : Option (List Nat)) (sent : SendOutcome) (hc : recvContract 1023 r) :
    heldAfter false (handle_client fd r fault sent) = false ∧
    (r.ret < 0 ∨ fault.isSome ∨
      writesGuarded false (handle_client fd r fault sent) = true) := by
  by_cases h0 : 0 ≤ r.ret
  · cases fault with
    | none =>
      cases sent with
      | returned ret =>
        simp [handle_client_acquired fd r hc h0 ret, heldAfter, writesGuarded]
      | sigpipe => simp [handle_client_sigpipe fd r hc h0, heldAfter, writesGuarded]
    | some what => simp [handle_client_lock_throws fd r what sent h0, heldAfter]
  · have hneg : r.ret < 0 := not_le.mp h0
    simp [handle_client_read_error fd r fault sent hneg, heldAfter, hneg]

/-- Claim C10: when `recv` stores `n ≤ 1023` bytes at the start of the zeroed
array of 1024, the array keeps its length, its byte 1023 is zero, and the C
string read from it ends inside it: the text logged is the stored bytes that
precede their first zero byte (all of them when none is zero), at most 1023
bytes, and the handler never reads past the array. -/
theorem log_read_stays_in_buffer (fd : Int) (r : RecvOutcome) (sent : SendOutcome)
    (hc : recvContract 1023 r) (h0 : 0 ≤ r.ret) :
    (recvStore (List.replicate 1024 0) r.stored).length = 1024 ∧
    (recvStore (List.replicate 1024 0) r.stored)[1023]? = some 0 ∧
    (recvStore (List.replicate 1024 0) r.stored).take r.stored.length = r.stored ∧
    (∃ text : List Nat,
      cstrRead (recvStore (List.replicate 1024 0) r.stored) = some text ∧
      text.length ≤ 1023 ∧
      0 ∉ text ∧
      (r.stored = text ∨ ∃ rest : List Nat, r.stored = text ++ 0 :: rest) ∧
      (0 ∉ r.stored → text = r.stored) ∧
      coutWrites (handle_client fd r none sent) =
        [ bytesOf "Received request:\n" ++ text ++ bytesOf "\n" ]) ∧
    Event.overrun ∉ handle_client fd r none sent := by
  have hlen : r.stored.length ≤ 1023 := (hc.2.1 h0).2
  refine ⟨?_, ?_, ?_, ?_, ?_⟩
  · rw [recvStore_zero r.stored hlen]
    simp only [List.length_append, List.length_cons, List.length_replicate]
    omega
  · rw [recvStore_zero r.stored hlen, ← List.replicate_succ,
      List.getElem?_append_right hlen, List.getElem?_replicate]
    have : 1023 - r.stored.length < 1023 - r.stored.length + 1 := by omega
    simp [this]
  · rw [recvStore_zero r.stored hlen]
    simp
  · refine ⟨r.stored.takeWhile (fun b => b ≠ 0), cstrRead_recvStore r.stored hlen, ?_, ?_,
      split_at_zero r.stored, ?_, ?_⟩
    · exact le_trans (List.takeWhile_sublist _).length_le hlen
    · intro hmem
      have := List.mem_takeWhile_imp hmem
      simp at this
    · intro hz
      rw [List.takeWhile_eq_self_iff]
      intro b hb
      have : b ≠ 0 := fun e => hz (e ▸ hb)
      simpa using this
    · exact coutWrites_handle_client fd r sent hc h0
  · cases sent with
    | returned ret => rw [handle_client_acquired fd r hc h0 ret]; simp
    | sigpipe => rw [handle_client_sigpipe fd r hc h0]; simp

/-- Witness of C10: the request `A`, a zero byte, `B` is logged as `A`. -/
theorem log_read_stays_in_buffer_witness :
    (recvStore (List.replicate 1024 0) [65, 0, 66])[1023]? = some 0 :=
  (log_read_stays_in_buffer 4 ⟨3, [65, 0, 66]⟩ (SendOutcome.returned 97)
    (by decide) (by decide)).2.1

/-! ## The accept loop -/

theorem whileTrue_append (body : ServerState → Int → ServerState × Ctl) :
    ∀ (rs : List Int) (st : ServerState) (rs2 : List Int),
      whileTrue body st (rs ++ rs2) =
        if (whileTrue body st rs).2 = true then whileTrue body st rs
        else whileTrue body (whileTrue body st rs).1 rs2
  | [], st, rs2 => by simp [whileTrue]
  | r :: rs, st, rs2 => by
    simp only [List.cons_append, whileTrue]
    cases hb : body st r with
    | mk st1 ctl =>
      cases ctl with
      | next => simpa using whileTrue_append body rs st1 rs2
      | brk => simp

theorem acceptBody_next (s : Int) (st : ServerState) (c : Int) :
    (acceptBody s st c).2 = Ctl.next := by
  unfold acceptBody
  split <;> rfl

theorem whileTrue_acceptBody (s : Int) :
    ∀ (rs : List Int) (st : ServerState),
      ∃ tr : List Event,
        whileTrue (acceptBody s) st rs =
          (⟨st.threads ++ rs.filter (fun c => 0 ≤ c), st.trace ++ tr⟩, false) ∧
        spawned tr = rs.filter (fun c => 0 ≤ c) ∧
        acceptCalls tr = rs.length ∧
        coutWrites tr = []
  | [], st => ⟨[], by simp [whileTrue], rfl, rfl, rfl⟩
  | c :: rs, st => by
    by_cases hc : c < 0
    · obtain ⟨tr, h1, h2, h3, h4⟩ := whileTrue_acceptBody s rs
        ⟨st.threads, st.trace ++ [Event.accept s] ++ [Event.cerr (bytesOf "Accept failed.\n")]⟩
      refine ⟨Event.accept s :: Event.cerr (bytesOf "Accept failed.\n") :: tr, ?_, ?_, ?_, ?_⟩
      · simp only [whileTrue, acceptBody, hc, if_true, h1]
        simp [not_le.mpr hc]
      · simp [spawned, h2, not_le.mpr hc]
      · simp [acceptCalls, h3]
      · simp [coutWrites, h4]
    · obtain ⟨tr, h1, h2, h3, h4⟩ := whileTrue_acceptBody s rs
        ⟨st.threads ++ [c], st.trace ++ [Event.accept s] ++ [Event.spawn c]⟩
      refine ⟨Event.accept s :: Event.spawn c :: tr, ?_, ?_, ?_, ?_⟩
      · simp only [whileTrue, acceptBody, hc, if_false, h1]
        simp [not_lt.mp hc]
      · simp [spawned, h2, not_lt.mp hc]
      · simp [acceptCalls, h3]
      · simp [coutWrites, h4]

theorem main_running (s b l : Int) (hs : 0 ≤ s) (hb : 0 ≤ b) (hl : 0 ≤ l)
    (accepts : List Int) :
    main s b l accepts =
      ⟨(whileTrue (acceptBody s)
          ⟨[], [ Event.socket, Event.bind s 8080, Event.listen s 10,
                 Event.cout (bytesOf "HTTP server is running on port 8080...\n") ]⟩
          accepts).1.trace,
       (whileTrue (acceptBody s)
          ⟨[], [ Event.socket, Event.bind s 8080, Event.listen s 10,
                 Event.cout (bytesOf "HTTP server is running on port 8080...\n") ]⟩
          accepts).1.threads,
       none⟩ := by
  have hban : banner 8080 = bytesOf "HTTP server is running on port 8080...\n" := by
    decide
  obtain ⟨tr, h1, -⟩ := whileTrue_acceptBody s accepts
    ⟨[], [ Event.socket, Event.bind s 8080, Event.listen s 10,
           Event.cout (bytesOf "HTTP server is running on port 8080...\n") ]⟩
  simp only [main, not_lt.mpr hs, not_lt.mpr hb, not_lt.mpr hl, if_false, hban, SERVER_PORT, h1]

theorem whileTrue_acceptBody_one (s : Int) (st : ServerState) (c : Int) :
    whileTrue (acceptBody s) st [c] = ((acceptBody s st c).1, false) := by
  have hn := acceptBody_next s st c
  cases hbody : acceptBody s st c with
  | mk st1 ctl =>
    rw [hbody] at hn
    simp only at hn
    subst hn
    simp only [whileTrue, hbody]

theorem main_step (s b l : Int) (hs : 0 ≤ s) (hb : 0 ≤ b) (hl : 0 ≤ l)
    (accepts : List Int) (c : Int) :
    (main s b l (accepts ++ [c])).threads =
      (acceptBody s ⟨(main s b l accepts).threads, (main s b l accepts).trace⟩ c).1.threads ∧
    (main s b l (accepts ++ [c])).trace =
      (acceptBody s ⟨(main s b l accepts).threads, (main s b l accepts).trace⟩ c).1.trace := by
  rw [main_running s b l hs hb hl, main_running s b l hs hb hl, whileTrue_append]
  obtain ⟨tr, h1, -⟩ := whileTrue_acceptBody s accepts
    ⟨[], [ Event.socket, Event.bind s 8080, Event.listen s 10,
           Event.cout (bytesOf "HTTP server is running on port 8080...\n") ]⟩
  rw [h1, whileTrue_acceptBody_one]
  simp

/-- Claim C7: once `socket`, `bind` and `listen` have succeeded, for every
finite list of results of `accept` the loop is still running (`main` has not
returned); the vector `threads` and the threads started are exactly the
non-negative results, in order; a negative result adds to the operations only
the `accept` and the error message and leaves `threads` as it was; a
non-negative result starts one thread on that socket and puts it at the end
of `threads`; and `threads` grows to any length. -/
theorem accept_loop_registry (s b l : Int) (hs : 0 ≤ s) (hb : 0 ≤ b) (hl : 0 ≤ l)
    (accepts : List Int) :
    (main s b l accepts).exit = none ∧
    (main s b l accepts).threads = accepts.filter (fun c => 0 ≤ c) ∧
    spawned (main s b l accepts).trace = accepts.filter (fun c => 0 ≤ c) ∧
    acceptCalls (main s b l accepts).trace = accepts.length ∧
    (∀ c : Int, c < 0 →
      (main s b l (accepts ++ [c])).threads = (main s b l accepts).threads ∧
      (main s b l (accepts ++ [c])).trace =
        (main s b l accepts).trace ++
          [ Event.accept s, Event.cerr (bytesOf "Accept failed.\n") ]) ∧
    (∀ c : Int, 0 ≤ c →
      (main s b l (accepts ++ [c])).threads = (main s b l accepts).threads ++ [c] ∧
      (main s b l (accepts ++ [c])).trace =
        (main s b l accepts).trace ++ [ Event.accept s, Event.spawn c ]) ∧
    (∀ (n : Nat) (c : Int), 0 ≤ c → (main s b l (List.replicate n c)).threads.length = n) := by
  obtain ⟨tr, h1, h2, h3, -⟩ := whileTrue_acceptBody s accepts
    ⟨[], [ Event.socket, Event.bind s 8080, Event.listen s 10,
           Event.cout (bytesOf "HTTP server is running on port 8080...\n") ]⟩
  refine ⟨?_, ?_, ?_, ?_, ?_, ?_, ?_⟩
  · rw [main_running s b l hs hb hl]
  · rw [main_running s b l hs hb hl, h1]
    simp
  · rw [main_running s b l hs hb hl, h1]
    simpa [spawned] using h2
  · rw [main_running s b l hs hb hl, h1]
    simpa [acceptCalls] using h3
  · intro c hc
    obtain ⟨e1, e2⟩ := main_step s b l hs hb hl accepts c
    rw [e1, e2]
    simp [acceptBody, hc]
  · intro c hc
    obtain ⟨e1, e2⟩ := main_step s b l hs hb hl accepts c
    rw [e1, e2]
    simp [acceptBody, not_lt.mpr hc]
  · intro n c hc
    obtain ⟨tr2, k1, -⟩ := whileTrue_acceptBody s (List.replicate n c)
      ⟨[], [ Event.socket, Event.bind s 8080, Event.listen s 10,
             Event.cout (bytesOf "HTTP server is running on port 8080...\n") ]⟩
    rw [main_running s b l hs hb hl, k1]
    have hf : (List.replicate n c).filter (fun c => decide (0 ≤ c)) = List.replicate n c := by
      rw [List.filter_eq_self]
      intro a ha
      rw [List.eq_of_mem_replicate ha]
      simpa using hc
    simp [hf]

/-- Witness of C7: listening socket 3, then `accept` returns 4, -1 and 5. -/
theorem accept_loop_registry_witness :
    (main 3 0 0 [4, -1, 5]).exit = none ∧ (main 3 0 0 [4, -1, 5]).threads = [4, 5] :=
  ⟨(accept_loop_registry 3 0 0 (by decide) (by decide) (by decide) [4, -1, 5]).1,
   (accept_loop_registry 3 0 0 (by decide) (by decide) (by decide) [4, -1, 5]).2.1⟩

/-- Claim C8: when `socket`, `bind` or `listen` returns a negative value,
`main` returns 1 having written nothing to `std::cout` and called `accept`
never; when all three succeed, the operations are `socket`, `bind`, `listen`,
the banner naming port 8080, and then those of the loop, which hold one
`accept` per result and no further write to `std::cout`, and `main` has not
returned; in no run does `main` return 0. -/
theorem startup_and_exit_codes (s b l : Int) (accepts : List Int) :
    ((s < 0 ∨ b < 0 ∨ l < 0) →
      (main s b l accepts).exit = some 1 ∧
      coutWrites (main s b l accepts).trace = [] ∧
      acceptCalls (main s b l accepts).trace = 0) ∧
    ((0 ≤ s ∧ 0 ≤ b ∧ 0 ≤ l) →
      ∃ loopTrace : List Event,
        (main s b l accepts).trace =
          [ Event.socket, Event.bind s 8080, Event.listen s 10,
            Event.cout (bytesOf "HTTP server is running on port 8080...\n") ] ++ loopTrace ∧
        coutWrites loopTrace = [] ∧
        acceptCalls loopTrace = accepts.length ∧
        coutWrites (main s b l accepts).trace =
          [ bytesOf "HTTP server is running on port 8080...\n" ] ∧
        (main s b l accepts).exit = none) ∧
    (main s b l accepts).exit ≠ some 0 := by
  have hfail : (s < 0 ∨ b < 0 ∨ l < 0) →
      (main s b l accepts).exit = some 1 ∧
      coutWrites (main s b l accepts).trace = [] ∧
      acceptCalls (main s b l accepts).trace = 0 := by
    intro h
    by_cases hs : s < 0
    · simp [main, hs, coutWrites, acceptCalls]
    · by_cases hb : b < 0
      · simp [main, hs, hb, coutWrites, acceptCalls]
      · have hl : l < 0 := by
          rcases h with h | h | h
          · exact absurd h hs
          · exact absurd h hb
          · exact h
        simp [main, hs, hb, hl, coutWrites, acceptCalls]
  have hok : (0 ≤ s ∧ 0 ≤ b ∧ 0 ≤ l) →
      ∃ loopTrace : List Event,
        (main s b l accepts).trace =
          [ Event.socket, Event.bind s 8080, Event.listen s 10,
            Event.cout (bytesOf "HTTP server is running on port 8080...\n") ] ++ loopTrace ∧
        coutWrites loopTrace = [] ∧
        acceptCalls loopTrace = accepts.length ∧
        coutWrites (main s b l accepts).trace =
          [ bytesOf "HTTP server is running on port 8080...\n" ] ∧
        (main s b l accepts).exit = none := by
    rintro ⟨hs, hb, hl⟩
    obtain ⟨tr, h1, -, h3, h4⟩ := whileTrue_acceptBody s accepts
      ⟨[], [ Event.socket, Event.bind s 8080, Event.listen s 10,
             Event.cout (bytesOf "HTTP server is running on port 8080...\n") ]⟩
    refine ⟨tr, ?_, h4, h3, ?_, ?_⟩
    · rw [main_running s b l hs hb hl, h1]
    · rw [main_running s b l hs hb hl, h1]
      simp [coutWrites, h4]
    · rw [main_running s b l hs hb hl]
  refine ⟨hfail, hok, ?_⟩
  by_cases h : s < 0 ∨ b < 0 ∨ l < 0
  · rw [(hfail h).1]
    decide
  · have h2 : 0 ≤ s ∧ 0 ≤ b ∧ 0 ≤ l := by
      refine ⟨?_, ?_, ?_⟩ <;> (by_contra hc; exact h (by simp only [not_le] at hc; simp [hc]))
    obtain ⟨_, _, _, _, _, hex⟩ := hok h2
    rw [hex]
    decide

/-- Witness of C8: a failing `bind`, and a run where startup succeeds. -/
theorem startup_and_exit_codes_witness :
    (main 3 (-1) 0 [4]).exit = some 1 ∧ (main 3 0 0 [4]).exit = none :=
  ⟨((startup_and_exit_codes 3 (-1) 0 [4]).1 (by decide)).1,
   by
     obtain ⟨_, _, _, _, _, hex⟩ := (startup_and_exit_codes 3 0 0 [4]).2.1 (by decide)
     exact hex⟩

end TinyHttp
